import Mathlib

/-!
Shallow embedding of the Bounso email verifier core (`app/verifier.py`):
MX resolution with a TTL cache, the SMTP multi-probe sequencer, the
timing analyzer, the behavioral scorer, single verification and bulk
verification.  Machine-level details of Python are modelled explicitly:
`round(x, 2)` as round-half-to-even at two decimals over ℚ, `int(x)` as
truncation toward zero, `str.strip()` as dropping ASCII whitespace from
both ends, and Python truthiness of lists/`None` where the source relies
on it.  External collaborators (the DNS resolver, SMTP sessions, the
random local-part generator) are oracle parameters.
-/

namespace Bounso

/-! ### Python-semantics helpers -/

/-- Python `int(q)` for a rational: truncation toward zero. -/
def pyInt (q : ℚ) : ℤ := if 0 ≤ q then ⌊q⌋ else ⌈q⌉

/-- Round a rational to the nearest integer, ties to even
(the behaviour of Python `round` on an exact half). -/
def roundHalfEven (q : ℚ) : ℤ :=
  let f : ℤ := ⌊q⌋
  let r : ℚ := q - (f : ℚ)
  if r < 1/2 then f
  else if 1/2 < r then f + 1
  else if f % 2 = 0 then f else f + 1

/-- Python `round(q, 2)`: two-decimal rounding, ties to even. -/
def round2 (q : ℚ) : ℚ := ((roundHalfEven (q * 100) : ℤ) : ℚ) / 100

/-- ASCII whitespace recognised by `str.strip()` (the Unicode extras of
Python are irrelevant to the inputs modelled here). -/
def isPySpace (c : Char) : Bool :=
  c = ' ' || c = '\t' || c = '\n' || c = '\r'

/-- Drop the longest suffix of elements satisfying `p`. -/
def dropRightWhile (p : α → Bool) (l : List α) : List α :=
  (l.reverse.dropWhile p).reverse

def pyStripLeft (l : List Char) : List Char := l.dropWhile isPySpace

def pyStripRight (l : List Char) : List Char := dropRightWhile isPySpace l

/-- Python `s.strip()`. -/
def pyStrip (s : String) : String :=
  String.mk (pyStripRight (pyStripLeft s.data))

/-- Does `needle` occur at the start of `hay`? -/
def startsWithL : List Char → List Char → Bool
  | [], _ => true
  | _ :: _, [] => false
  | a :: as, b :: bs => a = b && startsWithL as bs

/-- Python `needle in hay` for strings, on character lists. -/
def pySubstr (needle : List Char) : List Char → Bool
  | [] => needle.isEmpty
  | b :: bs => startsWithL needle (b :: bs) || pySubstr needle bs

/-- Split a character list at the first occurrence of `c`
(`none` when `c` does not occur). -/
def splitAtFirst (c : Char) : List Char → Option (List Char × List Char)
  | [] => none
  | a :: as =>
    if a = c then some ([], as)
    else
      match splitAtFirst c as with
      | none => none
      | some (l, r) => some (a :: l, r)

/-- Python `s.split("@", 1)[1]`: everything after the first `@`
(the call sites only reach this after the syntax check, so the
missing-`@` fallback is never exercised). -/
def afterFirstAt (s : String) : String :=
  match splitAtFirst '@' s.data with
  | some (_, r) => String.mk r
  | none => ""

/-- Python `s.split("@")[1]`: the segment between the first and the
second `@` (the whole remainder when there is a single `@`). -/
def secondAtSegment (s : String) : String :=
  match splitAtFirst '@' s.data with
  | some (_, r) =>
    match splitAtFirst '@' r with
    | some (l, _) => String.mk l
    | none => String.mk r
  | none => ""

/-- Python `s.rstrip('.')`: drop every trailing dot. -/
def pyRstripDot (s : String) : String :=
  String.mk (dropRightWhile (· = '.') s.data)

/-! ### The email syntax check

`EMAIL_REGEX = ^[A-Za-z0-9._%+-]+@[A-Za-z0-9.-]+\.[A-Za-z]{2,}$`.
None of the three character classes contains `@`, so a matching string
has exactly one `@` and the regex split is the split at the first `@`;
the domain part matches when some dot splits it into a non-empty
middle of domain characters and a final label of at least two letters.
(Python `$` additionally tolerates one trailing newline; no input
modelled here exercises that corner.) -/

def localChar (c : Char) : Bool :=
  c.isAlpha || c.isDigit || c = '.' || c = '_' || c = '%' || c = '+' || c = '-'

def midChar (c : Char) : Bool :=
  c.isAlpha || c.isDigit || c = '.' || c = '-'

def finalLabel (t : List Char) : Bool :=
  decide (2 ≤ t.length) && t.all (·.isAlpha)

def domainMatch (d : List Char) : Bool :=
  (List.range d.length).any fun p =>
    decide (1 ≤ p) && (d.take p).all midChar &&
      (match d.drop p with
       | '.' :: t => finalLabel t
       | _ => false)

def emailRegexMatch (s : String) : Bool :=
  match splitAtFirst '@' s.data with
  | none => false
  | some (l, d) => !l.isEmpty && l.all localChar && domainMatch d

/-! ### Source helpers (`app/verifier.py`) -/

/-- Embedding of `normalize_email`: `email.strip()`. -/
def normalize_email (email : String) : String := pyStrip email

/-- Embedding of `detect_mx_provider`: ordered substring patterns over the
lower-cased MX hostname, first match wins. -/
def detect_mx_provider (mx_host : String) : String :=
  let h := mx_host.data.map Char.toLower
  if pySubstr "outlook".data h || pySubstr "protection".data h then "microsoft365"
  else if pySubstr "google.com".data h || pySubstr "aspmx".data h then "google"
  else if pySubstr "pphosted".data h || pySubstr "proofpoint".data h then "proofpoint"
  else if pySubstr "mimecast".data h then "mimecast"
  else if pySubstr "barracuda".data h then "barracuda"
  else "unknown"

/-! ### Probes and the SMTP sequencer -/

/-- One recipient probe: address, optional status code, optional elapsed
time in milliseconds (`none` only for the connection-failure sentinel). -/
structure Probe where
  addr : String
  code : Option ℤ
  time : Option ℚ
deriving DecidableEq

/-- An SMTP session as the sequencer observes it: whether the connect
(and greeting) succeeds, and for the n-th RCPT command issued on the
session, the status code the server answers (`none` when the command
raised) together with the raw elapsed milliseconds measured around it. -/
structure ServerBehavior where
  connectOk : Bool
  rcpt : ℕ → Option ℤ × ℚ

/-- Python `code in (250, 450, 451, 452)` on an optional code. -/
def inAcceptCodes : Option ℤ → Bool
  | some c => c = 250 || c = 450 || c = 451 || c = 452
  | none => false

/-- Embedding of `str(x)` for an optional integer as an f-string renders it. -/
def pyStrOptInt : Option ℤ → String
  | some c => toString c
  | none => "None"

/-- Embedding of `smtp_multi_probe(mx, target_email, adaptive)`.  The two random
local-parts generated by `random_local()` are the oracle arguments
`r1`, `r2`; the single SMTP session opened by the call is `srv`.
Returns the probe list together with the number of protocol sessions
the call opened (the source has exactly one `smtplib.SMTP(); connect`
site, attempted once per call).  On a connect failure the source
appends the `__connect__` sentinel with null code and time. -/
def smtp_multi_probe (srv : ServerBehavior) (r1 r2 : String)
    (mx target : String) (adaptive : Bool) : List Probe × ℕ :=
  let domain := secondAtSegment target
  let a0 := r1 ++ "@" ++ domain
  let a2 := r2 ++ "@" ++ domain
  if srv.connectOk then
    let (c1, raw1) := srv.rcpt 0
    let t1 := round2 raw1
    let (c2, raw2) := srv.rcpt 1
    let t2 := round2 raw2
    let skipFake2 := adaptive && inAcceptCodes c2 && decide (60 < |t2 - t1|)
    let tail :=
      if skipFake2 then ([] : List Probe)
      else
        let (c3, raw3) := srv.rcpt 2
        [⟨a2, c3, some (round2 raw3)⟩]
    (⟨a0, c1, some t1⟩ :: ⟨target, c2, some t2⟩ :: tail, 1)
  else ([⟨"__connect__", none, none⟩], 1)

/-- Embedding of `outlook_single_probe(mx, addr)`: one fresh session per call; on any
failure both code and latency are `None`.  The second component counts
the session this call opened. -/
def outlook_single_probe (srv : ServerBehavior) (mx addr : String) :
    (Option ℤ × Option ℚ) × ℕ :=
  if srv.connectOk then
    let (c, raw) := srv.rcpt 0
    ((c, some (round2 raw)), 1)
  else ((none, none), 1)

/-! ### Timing analysis -/

/-- Embedding of `max` of a nonempty float list (0 as an unused default). -/
def qListMax : List ℚ → ℚ
  | [] => 0
  | a :: t => t.foldl max a

def qListMin : List ℚ → ℚ
  | [] => 0
  | a :: t => t.foldl min a

structure Signals where
  conf : ℚ
  delta : ℤ
  entropy : ℕ
  avgLatency : Option ℤ
deriving DecidableEq

/-- Embedding of `analyze_timing(seq)`: timing spread, code diversity, bounded
confidence.  Codes are stringified before deduplication exactly as the
source builds `set(codes)`. -/
def analyze_timing (seq : List Probe) : Signals :=
  let times := seq.filterMap (·.time)
  let codes := seq.filterMap (·.code)
  if times.isEmpty then ⟨0, 0, 1, none⟩
  else
    let delta := pyInt (qListMax times - qListMin times)
    let avg := pyInt ((times.foldl (· + ·) 0) / (times.length : ℚ))
    let entropy := if codes.isEmpty then 1 else ((codes.map toString).dedup).length
    let conf0 : ℚ :=
      (if 120 < delta then 25/100
       else if 80 < delta then 18/100
       else if 40 < delta then 12/100
       else if 10 < delta then 6/100
       else 0)
      + (if 1 < entropy then 5/100 else 0)
    let conf := round2 (min conf0 (35/100))
    ⟨conf, delta, entropy, avg⟩

/-! ### Behavioral scoring -/

structure ScoreOut where
  pattern : String
  score : ℚ
  status : String
  deliverable : Bool
deriving DecidableEq

def overrideProviders : List String :=
  ["microsoft365", "proofpoint", "mimecast", "barracuda"]

/-- The `if fake2_t is None: fake2_t = fake1_t` default of
`behavioral_score`. -/
def default_fake2 (fake1_t fake2_t : Option ℚ) : Option ℚ :=
  match fake2_t with
  | none => fake1_t
  | some v => some v

/-- The pattern ladder of `behavioral_score` over the three defaulted
times. -/
def timing_pattern (f1 f2 r : ℚ) : String :=
  let avg_fake := (f1 + f2) / 2
  let gap_fakes := |f1 - f2|
  let gap_real_vs_avg_fake := |r - avg_fake|
  if gap_fakes < 20 ∧ gap_real_vs_avg_fake < 20 then "flat_pattern"
  else if 60 < gap_real_vs_avg_fake ∧ avg_fake < r then "strong_delay"
  else if gap_fakes < 25 ∧ 20 ≤ gap_real_vs_avg_fake ∧ gap_real_vs_avg_fake ≤ 50 then
    "semi_flat"
  else "unclear"

/-- The weighted composite `base` of `behavioral_score`: 40 points on
the real-vs-decoy gap, 20 on decoy consistency, 20 on confidence, 10 on
entropy. -/
def generic_base (f1 f2 r conf : ℚ) (entropy : ℕ) : ℚ :=
  let avg_fake := (f1 + f2) / 2
  let gap_fakes := |f1 - f2|
  let gap_real_vs_avg_fake := |r - avg_fake|
  min (gap_real_vs_avg_fake / 80) 1 * 40 +
  (1 - min (gap_fakes / 100) 1) * 20 +
  min (conf / (35/100)) 1 * 20 +
  min ((entropy : ℚ) / 3) 1 * 10

/-- The ESP-aware override block of `behavioral_score` (its
provider/real-code conditional): score and pattern after the
provider-specific adjustment of the generic score. -/
def provider_adjust (provider : String) (real_code : Option ℤ)
    (score0 : ℚ) (pattern0 : String) : ℚ × String :=
  if overrideProviders.contains provider then
    if inAcceptCodes real_code then
      ((99 : ℚ), "smtp_" ++ pyStrOptInt real_code ++ "_valid")
    else if real_code = some 550 then ((10 : ℚ), "smtp_550_invalid")
    else (score0, pattern0)
  else if provider = "google" then
    if pattern0 = "strong_delay" then (max score0 90, pattern0)
    else if pattern0 = "flat_pattern" then (min score0 40, pattern0)
    else (score0, pattern0)
  else (score0, pattern0)

/-- The final threshold block of `behavioral_score`: map the adjusted
score and pattern to status and deliverability. -/
def score_verdict (sp : ℚ × String) : ScoreOut :=
  if 80 ≤ sp.1 then ⟨sp.2, sp.1, "valid", true⟩
  else if 55 ≤ sp.1 then ⟨sp.2, sp.1, "risky", false⟩
  else ⟨sp.2, sp.1, "invalid", false⟩

/-- Embedding of `behavioral_score(fake1_t, fake2_t, real_t, confidence, entropy,
provider, real_code)`.  The source's opening `isinstance` guard can
never fire (`x or 0` is numeric for every possible argument), so the
`no_data` early return is unreachable and omitted.  `x or 0` is the
`Option.getD 0` below (a `0.0` argument also maps to `0`, the same
value). -/
def behavioral_score (fake1_t fake2_t real_t : Option ℚ) (confidence : ℚ)
    (entropy : ℕ) (provider : String) (real_code : Option ℤ) : ScoreOut :=
  let f1 := fake1_t.getD 0
  let f2 := (default_fake2 fake1_t fake2_t).getD 0
  let r := real_t.getD 0
  let pattern0 := timing_pattern f1 f2 r
  let score0 := min 99 (round2 (generic_base f1 f2 r confidence entropy))
  score_verdict (provider_adjust provider real_code score0 pattern0)

/-! ### MX cache and lookup -/

/-- The in-memory TTL cache (`MXCache`); the dict is an association
list with unique keys (first match on lookup, replace on insert). -/
structure MXCache where
  ttl : ℚ
  store : List (String × ℚ × List String)
deriving DecidableEq

def storeLookup (st : List (String × ℚ × List String)) (d : String) :
    Option (ℚ × List String) :=
  match st.find? (fun x => x.1 = d) with
  | some x => some x.2
  | none => none

/-- Embedding of `MXCache.get(domain)` at time `now`: absent → `None`; expired
(strictly older than TTL) → lazily evicted and `None`; otherwise the
cached records (an empty cached list is returned as such — the caller's
truthiness test is what discards it). -/
def MXCache.get (c : MXCache) (now : ℚ) (domain : String) :
    Option (List String) × MXCache :=
  match storeLookup c.store domain with
  | none => (none, c)
  | some (ts, records) =>
    if c.ttl < now - ts then
      (none, { c with store := c.store.filter (fun x => ¬ x.1 = domain) })
    else (some records, c)

/-- Embedding of `MXCache.set(domain, records)` at time `now`. -/
def MXCache.set (c : MXCache) (now : ℚ) (domain : String)
    (records : List String) : MXCache :=
  { c with store := (domain, now, records) :: c.store.filter (fun x => ¬ x.1 = domain) }

/-- The underlying DNS query of `resolve_mx` (the `_resolver.resolve`
call plus the trailing-dot strip and the cache insert), bumping the
query counter.  A resolver exception propagates and skips the insert. -/
def mxQuery (resolver : String → Except String (List String)) (now : ℚ)
    (domain : String) (c : MXCache) (queries : ℕ) :
    Except String (List String) × MXCache × ℕ :=
  match resolver domain with
  | .error m => (.error m, c, queries + 1)
  | .ok raw =>
    let hosts := raw.map pyRstripDot
    (.ok hosts, c.set now domain hosts, queries + 1)

/-- Embedding of `resolve_mx(domain)`: serve from the cache when the cached value is
truthy (non-`None` and non-empty — Python `if cached:`), otherwise
query.  Threads the cache state and a count of underlying DNS queries. -/
def resolve_mx (resolver : String → Except String (List String)) (now : ℚ)
    (domain : String) (c : MXCache) (queries : ℕ) :
    Except String (List String) × MXCache × ℕ :=
  let gc := c.get now domain
  match gc.1 with
  | some records =>
    if records.isEmpty then mxQuery resolver now domain gc.2 queries
    else (.ok records, gc.2, queries)
  | none => mxQuery resolver now domain gc.2 queries

/-! ### Single verification -/

/-- The result dict of `verify_email`, with the fields it initialises. -/
structure VerifyResult where
  email : String
  fake1_code : Option ℤ := none
  fake1_time : Option ℚ := none
  real_code : Option ℤ := none
  real_time : Option ℚ := none
  fake2_code : Option ℤ := none
  fake2_time : Option ℚ := none
  timing_delta : Option ℤ := none
  entropy : Option ℕ := none
  avg_latency : Option ℤ := none
  confidence : Option ℚ := none
  provider : Option String := none
  pattern : Option String := none
  status : String := "invalid"
  deliverable : Bool := false
  score : ℚ := 0
  reason : Option String := none
  mx : List String := []
deriving DecidableEq

/-- The external world one `verify_email` call observes: the observable
behaviour of `resolve_mx` for its one lookup (host list after caching
and dot-stripping, or the exception text that `mx_error:{e}` embeds),
the SMTP sessions it opens in order, and the two `random_local()`
draws. -/
structure World where
  resolve : String → Except String (List String)
  session : ℕ → ServerBehavior
  rand1 : String
  rand2 : String

/-- The `behavioral_score` call of `verify_email`, whose time and code
arguments are read off the extracted probe slots of `seq` and whose
signal arguments come from `analyze_timing`. -/
def seqScore (provider : String) (seq : List Probe) : ScoreOut :=
  behavioral_score ((seq.get? 0).bind (·.time)) ((seq.get? 2).bind (·.time))
    ((seq.get? 1).bind (·.time)) (analyze_timing seq).conf
    (analyze_timing seq).entropy provider ((seq.get? 1).bind (·.code))

/-- The result-extraction and scoring tail of `verify_email` (lines
"Extract results" onward): fill the probe fields from the sequence,
run `analyze_timing` and `behavioral_score`, and set the final
`pattern_analysis` reason. -/
def assemble (base : VerifyResult) (mx_records : List String)
    (provider : String) (seq : List Probe) : VerifyResult :=
  let p0 := seq.get? 0
  let p1 := seq.get? 1
  let p2 := seq.get? 2
  let sig := analyze_timing seq
  let scored := seqScore provider seq
  { base with
      mx := mx_records
      provider := some provider
      fake1_code := p0.bind (·.code), fake1_time := p0.bind (·.time)
      real_code := p1.bind (·.code), real_time := p1.bind (·.time)
      fake2_code := p2.bind (·.code), fake2_time := p2.bind (·.time)
      timing_delta := some sig.delta
      entropy := some sig.entropy
      avg_latency := sig.avgLatency
      confidence := some sig.conf
      pattern := some scored.pattern
      score := scored.score
      status := scored.status
      deliverable := scored.deliverable
      reason := some "pattern_analysis" }

/-- Embedding of `verify_email(email)`.  Returns the result record together with the
number of protocol sessions the call opened: the non-Microsoft path
hands one session to `smtp_multi_probe`; the Microsoft365 override
calls `outlook_single_probe` three times, one fresh session per probe. -/
def verify_email (w : World) (email0 : String) : VerifyResult × ℕ :=
  let email := normalize_email email0
  let base : VerifyResult := { email := email }
  if ¬ emailRegexMatch email then
    ({ base with reason := some "bad_syntax" }, 0)
  else
    match w.resolve (afterFirstAt email) with
    | .error msg => ({ base with reason := some ("mx_error:" ++ msg) }, 0)
    | .ok mx_records =>
      if mx_records.isEmpty then
        ({ base with mx := mx_records, reason := some "no_mx" }, 0)
      else
        let provider := detect_mx_provider (mx_records.headD "")
        let mx_host := mx_records.headD ""
        let sq :=
          if provider = "microsoft365" then
            let domain := afterFirstAt email
            let fake1 := w.rand1 ++ "@" ++ domain
            let fake2 := w.rand2 ++ "@" ++ domain
            let p1 := outlook_single_probe (w.session 0) mx_host fake1
            let p2 := outlook_single_probe (w.session 1) mx_host email
            let p3 := outlook_single_probe (w.session 2) mx_host fake2
            (([⟨fake1, p1.1.1, p1.1.2⟩, ⟨email, p2.1.1, p2.1.2⟩,
               ⟨fake2, p3.1.1, p3.1.2⟩] : List Probe), p1.2 + p2.2 + p3.2)
          else
            smtp_multi_probe (w.session 0) w.rand1 w.rand2 mx_host email true
        (assemble base mx_records provider sq.1, sq.2)

/-! ### Bulk verification -/

/-- The worker loop of `verify_bulk_emails`: worker `i` runs in world
`w i`.  `as_completed` yields results in a nondeterministic order; the
model collects them in submission order — the dict-based reordering
step below is what the source uses to make the output order
independent of completion order.  `verify_email` in this model is
total, so the source's per-future exception fallback is not reachable. -/
def runWorkers (w : ℕ → World) : ℕ → List String → List VerifyResult
  | _, [] => []
  | i, e :: rest => (verify_email (w i) e).1 :: runWorkers w (i + 1) rest

/-- Embedding of `email_to_result.get(e)`: the dict comprehension keeps, for each
email key, the last result carrying it. -/
def dictGet (rs : List VerifyResult) (e : String) : Option VerifyResult :=
  rs.reverse.find? (fun r => r.email = e)

/-- Embedding of `verify_bulk_emails(emails)`: filter the raw inputs by truthiness
and the syntax regex, normalize, fan out, and reorder the collected
results back to the (filtered) input order via the email-keyed dict. -/
def verify_bulk_emails (w : ℕ → World) (emails : List String) :
    List VerifyResult :=
  let valid := (emails.filter (fun e => !e.isEmpty && emailRegexMatch e)).map
    normalize_email
  if valid.isEmpty then []
  else
    let results := runWorkers w 0 valid
    valid.filterMap (fun e => if (dictGet results e).isSome then dictGet results e else none)

/-! ### Spec-modelled composite (for comparison only)

The generic composite exactly as the specification words it: 40% weight
on the gap term, 40% weight on the confidence term, and the remaining
20% on the entropy term, summed and capped at 99. -/

def specGenericComposite (fake1_t fake2_t real_t conf : ℚ) (entropy : ℕ) : ℚ :=
  let gap := |real_t - (fake1_t + fake2_t) / 2|
  min 99 (min (gap / 80) 1 * 40 + min (conf / (35/100)) 1 * 40 +
    min ((entropy : ℚ) / 3) 1 * 20)

/-! ### Concrete oracles used by witnesses and counterexamples -/

/-- A session whose connect always fails. -/
def srvDead : ServerBehavior := ⟨false, fun _ => (none, 0)⟩

/-- A session that accepts every recipient in 100 ms. -/
def srvAccept : ServerBehavior := ⟨true, fun _ => (some 250, 100)⟩

/-- A world with an unknown-provider MX and unreachable SMTP hosts. -/
def wDead : World :=
  ⟨fun _ => .ok ["mx.example.net"], fun _ => srvDead, "r1x", "r2x"⟩

/-- A world whose MX resolves to a Microsoft365 host that accepts all. -/
def wMs : World :=
  ⟨fun _ => .ok ["mail.outlook.example"], fun _ => srvAccept, "r1x", "r2x"⟩

/-- A world whose DNS lookup raises (message `NXDOMAIN`). -/
def wErr : World := ⟨fun _ => .error "NXDOMAIN", fun _ => srvDead, "r1x", "r2x"⟩

/-- A world whose DNS lookup succeeds with an empty answer. -/
def wEmpty : World := ⟨fun _ => .ok [], fun _ => srvDead, "r1x", "r2x"⟩

/-- A DNS resolver that always answers with an empty record list. -/
def emptyResolver : String → Except String (List String) := fun _ => .ok []

/-- A DNS resolver that always answers with one (dot-terminated) host. -/
def okResolver : String → Except String (List String) :=
  fun _ => .ok ["mx.example.com."]

/-! ## Shared lemmas -/

theorem score_verdict_score (sp : ℚ × String) : (score_verdict sp).score = sp.1 := by
  unfold score_verdict; split
  · rfl
  · split <;> rfl

theorem score_verdict_pattern (sp : ℚ × String) :
    (score_verdict sp).pattern = sp.2 := by
  unfold score_verdict; split
  · rfl
  · split <;> rfl

theorem score_verdict_status (sp : ℚ × String) :
    (score_verdict sp).status =
      if 80 ≤ sp.1 then "valid" else if 55 ≤ sp.1 then "risky" else "invalid" := by
  unfold score_verdict; split
  · simp [*]
  · split <;> simp [*]

theorem score_verdict_deliverable (sp : ℚ × String) :
    (score_verdict sp).deliverable = decide (80 ≤ sp.1) := by
  unfold score_verdict; split
  · simp [*]
  · split <;> simp [*]

theorem roundHalfEven_nonneg (q : ℚ) (h : 0 ≤ q) : 0 ≤ roundHalfEven q := by
  have hf : (0 : ℤ) ≤ ⌊q⌋ := Int.floor_nonneg.mpr h
  simp only [roundHalfEven]
  repeat' split
  all_goals omega

theorem round2_nonneg (q : ℚ) (h : 0 ≤ q) : 0 ≤ round2 q := by
  unfold round2
  have := roundHalfEven_nonneg (q * 100) (by positivity)
  have hc : (0 : ℚ) ≤ ((roundHalfEven (q * 100) : ℤ) : ℚ) := by exact_mod_cast this
  positivity

theorem generic_base_nonneg (f1 f2 r conf : ℚ) (en : ℕ) (hconf : 0 ≤ conf) :
    0 ≤ generic_base f1 f2 r conf en := by
  unfold generic_base
  have h1 : (0 : ℚ) ≤ min (|r - (f1 + f2) / 2| / 80) 1 * 40 := by
    have := abs_nonneg (r - (f1 + f2) / 2)
    have : (0 : ℚ) ≤ |r - (f1 + f2) / 2| / 80 := by positivity
    nlinarith [min_le_left (|r - (f1 + f2) / 2| / 80) (1 : ℚ),
      le_min this (zero_le_one (α := ℚ))]
  have h2 : (0 : ℚ) ≤ (1 - min (|f1 - f2| / 100) 1) * 20 := by
    have := min_le_right (|f1 - f2| / 100) (1 : ℚ)
    nlinarith
  have h3 : (0 : ℚ) ≤ min (conf / (35/100)) 1 * 20 := by
    have hd : (0 : ℚ) ≤ conf / (35/100) := by positivity
    nlinarith [le_min hd (zero_le_one (α := ℚ))]
  have h4 : (0 : ℚ) ≤ min ((en : ℚ) / 3) 1 * 10 := by
    have hd : (0 : ℚ) ≤ (en : ℚ) / 3 := by positivity
    nlinarith [le_min hd (zero_le_one (α := ℚ))]
  linarith

theorem score0_bounds (b : ℚ) (hb : 0 ≤ b) :
    0 ≤ min (99 : ℚ) (round2 b) ∧ min (99 : ℚ) (round2 b) ≤ 99 :=
  ⟨le_min (by norm_num) (round2_nonneg _ hb), min_le_left _ _⟩

theorem provider_adjust_bounds (p : String) (c : Option ℤ) (s0 : ℚ)
    (pat : String) (h0 : 0 ≤ s0) (h99 : s0 ≤ 99) :
    0 ≤ (provider_adjust p c s0 pat).1 ∧ (provider_adjust p c s0 pat).1 ≤ 99 := by
  unfold provider_adjust
  split
  · split
    · norm_num
    · split
      · norm_num
      · exact ⟨h0, h99⟩
  · split
    · split
      · exact ⟨le_trans h0 (le_max_left _ _), max_le h99 (by norm_num)⟩
      · split
        · exact ⟨le_min h0 (by norm_num), le_trans (min_le_left _ _) h99⟩
        · exact ⟨h0, h99⟩
    · exact ⟨h0, h99⟩

theorem behavioral_score_eq (f1t f2t rt : Option ℚ) (conf : ℚ) (en : ℕ)
    (p : String) (c : Option ℤ) :
    behavioral_score f1t f2t rt conf en p c =
      score_verdict (provider_adjust p c
        (min 99 (round2 (generic_base (f1t.getD 0)
          ((default_fake2 f1t f2t).getD 0) (rt.getD 0) conf en)))
        (timing_pattern (f1t.getD 0) ((default_fake2 f1t f2t).getD 0)
          (rt.getD 0))) := rfl

theorem behavioral_score_bounds (f1t f2t rt : Option ℚ) (conf : ℚ) (en : ℕ)
    (p : String) (c : Option ℤ) (hconf : 0 ≤ conf) :
    0 ≤ (behavioral_score f1t f2t rt conf en p c).score ∧
      (behavioral_score f1t f2t rt conf en p c).score ≤ 99 := by
  rw [behavioral_score_eq, score_verdict_score]
  refine provider_adjust_bounds _ _ _ _ ?_ ?_
  · exact (score0_bounds _ (generic_base_nonneg _ _ _ _ _ hconf)).1
  · exact (score0_bounds _ (generic_base_nonneg _ _ _ _ _ hconf)).2

theorem behavioral_score_status_eq (f1t f2t rt : Option ℚ) (conf : ℚ) (en : ℕ)
    (p : String) (c : Option ℤ) :
    (behavioral_score f1t f2t rt conf en p c).status =
      (if 80 ≤ (behavioral_score f1t f2t rt conf en p c).score then "valid"
       else if 55 ≤ (behavioral_score f1t f2t rt conf en p c).score then "risky"
       else "invalid") := by
  rw [behavioral_score_eq, score_verdict_status, score_verdict_score]

theorem roundHalfEven_intCast (n : ℤ) : roundHalfEven (n : ℚ) = n := by
  simp only [roundHalfEven, Int.floor_intCast]
  norm_num

theorem round2_mul100_int (q : ℚ) (n : ℤ) (h : q * 100 = (n : ℚ)) :
    round2 q = (n : ℚ) / 100 := by
  unfold round2
  rw [h, roundHalfEven_intCast]

theorem roundHalfEven_frac_lt (q : ℚ) (n : ℤ) (hle : (n : ℚ) ≤ q)
    (hlt : q - (n : ℚ) < 1/2) : roundHalfEven q = n := by
  have hf : ⌊q⌋ = n := Int.floor_eq_iff.mpr ⟨hle, by linarith⟩
  simp only [roundHalfEven, hf]
  rw [if_pos (by linarith)]

theorem analyze_timing_conf_nonneg (seq : List Probe) :
    0 ≤ (analyze_timing seq).conf := by
  unfold analyze_timing
  dsimp only
  split
  · norm_num
  · refine round2_nonneg _ (le_min ?_ (by norm_num))
    repeat' split
    all_goals norm_num

theorem assemble_score (b : VerifyResult) (mx : List String) (p : String)
    (seq : List Probe) : (assemble b mx p seq).score = (seqScore p seq).score := rfl

theorem assemble_status (b : VerifyResult) (mx : List String) (p : String)
    (seq : List Probe) : (assemble b mx p seq).status = (seqScore p seq).status := rfl

theorem assemble_deliverable (b : VerifyResult) (mx : List String) (p : String)
    (seq : List Probe) :
    (assemble b mx p seq).deliverable = (seqScore p seq).deliverable := rfl

theorem assemble_reason (b : VerifyResult) (mx : List String) (p : String)
    (seq : List Probe) : (assemble b mx p seq).reason = some "pattern_analysis" := rfl

theorem assemble_email (b : VerifyResult) (mx : List String) (p : String)
    (seq : List Probe) : (assemble b mx p seq).email = b.email := rfl

theorem round2_seventy_thirds : round2 ((70 : ℚ)/3) = 2333/100 := by
  unfold round2
  rw [show (70 : ℚ)/3 * 100 = 7000/3 by norm_num,
    roundHalfEven_frac_lt (7000/3) 2333 (by norm_num) (by norm_num)]
  norm_num

/-- With no measurable time and no code, `behavioral_score` lands on
the flat pattern with score 70/3 rounded, i.e. 23.33, for every
provider. -/
theorem behavioral_score_noData (p : String) :
    behavioral_score none none none 0 1 p none =
      ⟨"flat_pattern", 2333/100, "invalid", false⟩ := by
  rw [behavioral_score_eq]
  simp only [default_fake2, Option.getD_none]
  have hpat : timing_pattern 0 0 0 = "flat_pattern" := by
    norm_num [timing_pattern]
  have hbase : generic_base 0 0 0 0 1 = 70/3 := by
    norm_num [generic_base]
  have hmin : min (99 : ℚ) (round2 ((70 : ℚ)/3)) = 2333/100 := by
    rw [round2_seventy_thirds]; norm_num
  rw [hpat, hbase, hmin]
  have hfin : score_verdict ((2333/100 : ℚ), "flat_pattern") =
      ⟨"flat_pattern", 2333/100, "invalid", false⟩ := by
    unfold score_verdict
    rw [if_neg (by norm_num), if_neg (by norm_num)]
  unfold provider_adjust
  split
  · rw [show inAcceptCodes none = false from rfl]
    simp only [Bool.false_eq_true, if_false,
      show ((none : Option ℤ) = some 550) = False by simp, if_false]
    exact hfin
  · split
    · rw [if_neg (by decide), if_pos rfl]
      rw [show min ((2333 : ℚ)/100) 40 = 2333/100 by norm_num]
      exact hfin
    · exact hfin

theorem seqScore_sentinel (p : String) :
    seqScore p [⟨"__connect__", none, none⟩] =
      ⟨"flat_pattern", 2333/100, "invalid", false⟩ := by
  have h : analyze_timing [⟨"__connect__", none, none⟩] = ⟨0, 0, 1, none⟩ := rfl
  unfold seqScore
  rw [h]
  exact behavioral_score_noData p

theorem seqScore_noTimes3 (p a b c : String) :
    seqScore p [⟨a, none, none⟩, ⟨b, none, none⟩, ⟨c, none, none⟩] =
      ⟨"flat_pattern", 2333/100, "invalid", false⟩ := by
  have h : analyze_timing [⟨a, none, none⟩, ⟨b, none, none⟩, ⟨c, none, none⟩] =
      ⟨0, 0, 1, none⟩ := rfl
  unfold seqScore
  rw [h]
  exact behavioral_score_noData p

/-- A verification whose SMTP sessions all fail to connect ends in the
fixed 23.33 / `invalid` / `pattern_analysis` outcome, on both probe
paths. -/
theorem verify_email_dead (w : World) (e : String)
    (hre : emailRegexMatch (pyStrip e) = true) (hos : List String)
    (hres : w.resolve (afterFirstAt (pyStrip e)) = .ok hos)
    (hne : hos.isEmpty = false)
    (hd0 : (w.session 0).connectOk = false)
    (hd1 : (w.session 1).connectOk = false)
    (hd2 : (w.session 2).connectOk = false) :
    (verify_email w e).1.score = 2333/100 ∧
    (verify_email w e).1.status = "invalid" ∧
    (verify_email w e).1.deliverable = false ∧
    (verify_email w e).1.reason = some "pattern_analysis" := by
  unfold verify_email
  simp only [normalize_email]
  rw [if_neg (by simp [hre]), hres]
  simp only []
  rw [if_neg (by simp [hne])]
  split
  · simp only [outlook_single_probe, hd0, hd1, hd2, Bool.false_eq_true, if_false]
    rw [assemble_score, assemble_status, assemble_deliverable, assemble_reason,
      seqScore_noTimes3]
    exact ⟨rfl, rfl, rfl, rfl⟩
  · simp only [smtp_multi_probe, hd0, Bool.false_eq_true, if_false]
    rw [assemble_score, assemble_status, assemble_deliverable, assemble_reason,
      seqScore_sentinel]
    exact ⟨rfl, rfl, rfl, rfl⟩

theorem outlook_single_probe_sessions (srv : ServerBehavior) (mx addr : String) :
    (outlook_single_probe srv mx addr).2 = 1 := by
  unfold outlook_single_probe
  split <;> rfl

theorem smtp_multi_probe_sessions (srv : ServerBehavior) (r1 r2 mx t : String)
    (a : Bool) : (smtp_multi_probe srv r1 r2 mx t a).2 = 1 := by
  unfold smtp_multi_probe
  split <;> rfl

theorem dropWhile_idem (p : α → Bool) (l : List α) :
    (l.dropWhile p).dropWhile p = l.dropWhile p := by
  induction l with
  | nil => rfl
  | cons a t ih =>
    by_cases h : p a
    · simp [List.dropWhile_cons, h, ih]
    · simp [List.dropWhile_cons, h]

theorem dropRightWhile_cons (p : α → Bool) (a : α) (t : List α) :
    dropRightWhile p (a :: t) =
      if (dropRightWhile p t).isEmpty then (if p a then [] else [a])
      else a :: dropRightWhile p t := by
  unfold dropRightWhile
  rw [List.reverse_cons, List.dropWhile_append]
  by_cases h : (List.dropWhile p t.reverse).isEmpty
  · rw [if_pos h, if_pos (by simpa [List.isEmpty_iff] using h)]
    by_cases hp : p a <;> simp [List.dropWhile_cons, hp]
  · rw [if_neg h, if_neg (by simpa [List.isEmpty_iff] using h)]
    simp

theorem dropRightWhile_idem (p : α → Bool) (l : List α) :
    dropRightWhile p (dropRightWhile p l) = dropRightWhile p l := by
  induction l with
  | nil => rfl
  | cons a t ih =>
    rw [dropRightWhile_cons]
    by_cases h : (dropRightWhile p t).isEmpty
    · rw [if_pos h]
      by_cases hp : p a
      · rw [if_pos hp]; rfl
      · rw [if_neg hp]
        simp [dropRightWhile, List.dropWhile_cons, hp]
    · rw [if_neg h, dropRightWhile_cons, ih, if_neg h]

theorem dropWhile_cons_self_head (p : α → Bool) (a : α) (t : List α)
    (hm : List.dropWhile p (a :: t) = a :: t) : p a = false := by
  by_cases hpa : p a
  · rw [List.dropWhile_cons, if_pos hpa] at hm
    have h1 := (List.dropWhile_suffix (l := t) p).length_le
    have h2 := congrArg List.length hm
    simp only [List.length_cons] at h2
    omega
  · simpa using hpa

theorem dropWhile_dropRightWhile (p : α → Bool) (m : List α)
    (hm : m.dropWhile p = m) :
    (dropRightWhile p m).dropWhile p = dropRightWhile p m := by
  cases m with
  | nil => rfl
  | cons a t =>
    have ha : p a = false := dropWhile_cons_self_head p a t hm
    rw [dropRightWhile_cons]
    by_cases h : (dropRightWhile p t).isEmpty
    · rw [if_pos h, if_neg (by simp [ha])]
      simp [List.dropWhile_cons, ha]
    · rw [if_neg h]
      simp [List.dropWhile_cons, ha]

theorem pyStrip_idem (s : String) : pyStrip (pyStrip s) = pyStrip s := by
  unfold pyStrip pyStripLeft pyStripRight
  simp only [String.data]
  rw [dropWhile_dropRightWhile _ _ (dropWhile_idem _ _), dropRightWhile_idem]

theorem verify_email_email (w : World) (e : String) :
    (verify_email w e).1.email = pyStrip e := by
  unfold verify_email
  simp only [normalize_email]
  split
  · rfl
  · split
    · rfl
    · split
      · rfl
      · exact assemble_email _ _ _ _

theorem runWorkers_mem (w : ℕ → World) (i : ℕ) (L : List String) :
    ∀ e ∈ L, ∃ r ∈ runWorkers w i L, r.email = pyStrip e := by
  induction L generalizing i with
  | nil => intro e he; cases he
  | cons a t ih =>
    intro e he
    rcases List.mem_cons.mp he with rfl | hmem
    · exact ⟨(verify_email (w i) e).1, List.mem_cons_self _ _,
        verify_email_email _ _⟩
    · obtain ⟨r, hr, hre⟩ := ih (i + 1) e hmem
      exact ⟨r, List.mem_cons_of_mem _ hr, hre⟩

theorem dictGet_of_mem (rs : List VerifyResult) (e : String)
    (h : ∃ r ∈ rs, r.email = e) :
    ∃ r, dictGet rs e = some r ∧ r.email = e := by
  unfold dictGet
  obtain ⟨r, hr, hre⟩ := h
  have hex : ∃ x ∈ rs.reverse, (fun r => decide (r.email = e)) x = true :=
    ⟨r, List.mem_reverse.mpr hr, by simp [hre]⟩
  have hs : (rs.reverse.find? (fun r => r.email = e)).isSome := by
    rw [List.find?_isSome]
    exact hex
  obtain ⟨r2, hr2⟩ := Option.isSome_iff_exists.mp hs
  refine ⟨r2, hr2, ?_⟩
  have := List.find?_some hr2
  simpa using this

theorem filterMap_keyed (L : List String) (f : String → Option VerifyResult)
    (h : ∀ e ∈ L, ∃ r, f e = some r ∧ r.email = e) :
    (L.filterMap f).map (·.email) = L := by
  induction L with
  | nil => rfl
  | cons a t ih =>
    obtain ⟨r, hr, hre⟩ := h a (List.mem_cons_self a t)
    rw [List.filterMap_cons, hr]
    simp only [List.map_cons, hre]
    rw [ih (fun e he => h e (List.mem_cons_of_mem _ he))]

/-- The bulk output carries exactly one result per syntactically valid
(filtered, normalized) input, keyed by its email, in the filtered input
order. -/
theorem verify_bulk_map_email (w : ℕ → World) (emails : List String) :
    (verify_bulk_emails w emails).map (·.email) =
      (emails.filter (fun e => !e.isEmpty && emailRegexMatch e)).map
        normalize_email := by
  unfold verify_bulk_emails
  by_cases hF : ((emails.filter (fun e => !e.isEmpty && emailRegexMatch e)).map
      normalize_email).isEmpty
  · rw [if_pos hF]
    rw [List.isEmpty_iff.mp hF]
    rfl
  · rw [if_neg hF]
    refine filterMap_keyed _ _ ?_
    intro e he
    have hidem : pyStrip e = e := by
      obtain ⟨x, _, rfl⟩ := List.mem_map.mp he
      exact pyStrip_idem x
    obtain ⟨r, hrmem, hre⟩ := runWorkers_mem w 0 _ e he
    rw [hidem] at hre
    obtain ⟨r2, hr2, hre2⟩ := dictGet_of_mem _ e ⟨r, hrmem, hre⟩
    refine ⟨r2, ?_, hre2⟩
    rw [hr2]
    simp

/-! ## Claims -/

/-- C4: Provider-override determinism (confirmed): whenever the
provider is one of the generic-accept family (`microsoft365`,
`proofpoint`, `mimecast`, `barracuda`), a real-probe hard rejection 550
forces score 10 with the undeliverable verdict (the source spells that
status `"invalid"`, `Deliverable = False`), and a real-probe
accept/soft-defer code (250/450/451/452) forces score 99 with the
deliverable verdict (status `"valid"`, `Deliverable = True`) — in both
cases regardless of all timing signals. -/
theorem c4_provider_override (f1t f2t rt : Option ℚ) (conf : ℚ) (en : ℕ)
    (p : String) (hp : overrideProviders.contains p = true) (c : ℤ) :
    (inAcceptCodes (some c) = true →
      behavioral_score f1t f2t rt conf en p (some c) =
        ⟨"smtp_" ++ toString c ++ "_valid", 99, "valid", true⟩) ∧
    behavioral_score f1t f2t rt conf en p (some 550) =
      ⟨"smtp_550_invalid", 10, "invalid", false⟩ := by
  constructor
  · intro hacc
    rw [behavioral_score_eq]
    unfold provider_adjust
    rw [if_pos hp, if_pos hacc]
    unfold score_verdict pyStrOptInt
    norm_num
  · rw [behavioral_score_eq]
    unfold provider_adjust
    rw [if_pos hp]
    have : inAcceptCodes (some 550) = false := by decide
    rw [this]
    unfold score_verdict
    norm_num

/-- Witness for C4 at provider `microsoft365`, codes 250 and 550. -/
theorem c4_provider_override_witness :
    overrideProviders.contains "microsoft365" = true ∧
    inAcceptCodes (some 250) = true ∧
    behavioral_score (some 100) (some 100) (some 500) (35/100) 3
      "microsoft365" (some 250) = ⟨"smtp_250_valid", 99, "valid", true⟩ ∧
    behavioral_score (some 100) (some 100) (some 500) (35/100) 3
      "microsoft365" (some 550) = ⟨"smtp_550_invalid", 10, "invalid", false⟩ := by
  refine ⟨by decide, by decide, ?_, ?_⟩
  · exact (c4_provider_override (some 100) (some 100) (some 500) (35/100) 3
      "microsoft365" (by decide) 250).1 (by decide)
  · exact (c4_provider_override (some 100) (some 100) (some 500) (35/100) 3
      "microsoft365" (by decide) 550).2

/-- C10: In every scorer result, `Deliverable` is `True` exactly
when the score is at least 80, which is exactly when the status is the
deliverable one (spelled `"valid"` by the source); the `"risky"` and
`"invalid"` statuses always carry `Deliverable = False`. -/
theorem c10_deliverable_iff_score (f1t f2t rt : Option ℚ) (conf : ℚ) (en : ℕ)
    (p : String) (c : Option ℤ) :
    ((behavioral_score f1t f2t rt conf en p c).deliverable = true ↔
      80 ≤ (behavioral_score f1t f2t rt conf en p c).score) ∧
    ((behavioral_score f1t f2t rt conf en p c).deliverable = true ↔
      (behavioral_score f1t f2t rt conf en p c).status = "valid") ∧
    (((behavioral_score f1t f2t rt conf en p c).status = "risky" ∨
      (behavioral_score f1t f2t rt conf en p c).status = "invalid") ↔
      (behavioral_score f1t f2t rt conf en p c).deliverable = false) := by
  rw [behavioral_score_eq, score_verdict_status, score_verdict_score,
    score_verdict_deliverable]
  by_cases h80 : 80 ≤ (provider_adjust p c
      (min 99 (round2 (generic_base (f1t.getD 0)
        ((default_fake2 f1t f2t).getD 0) (rt.getD 0) conf en)))
      (timing_pattern (f1t.getD 0) ((default_fake2 f1t f2t).getD 0)
        (rt.getD 0))).1
  · simp [h80]
  · by_cases h55 : 55 ≤ (provider_adjust p c
        (min 99 (round2 (generic_base (f1t.getD 0)
          ((default_fake2 f1t f2t).getD 0) (rt.getD 0) conf en)))
        (timing_pattern (f1t.getD 0) ((default_fake2 f1t f2t).getD 0)
          (rt.getD 0))).1
    · simp [h80, h55]
    · simp [h80, h55]

/-- C6 counterexample: At decoy times 100/100, real time 100,
confidence 0.35 and entropy 3 (generic scoring, no override for the
`unknown` provider), the source computes score 50, while the claimed
40/40/20 composite over gap, confidence and entropy gives 60: the
source's weights are 40 on the gap, 20 on decoy consistency, 20 on
confidence and 10 on entropy. -/
theorem c6_composite_counterexample :
    (behavioral_score (some 100) (some 100) (some 100) (35/100) 3
      "unknown" (some 250)).score = 50 ∧
    specGenericComposite 100 100 100 (35/100) 3 = 60 ∧
    (50 : ℚ) ≠ 60 := by
  refine ⟨?_, ?_, by norm_num⟩
  · rw [behavioral_score_eq, score_verdict_score]
    simp only [default_fake2, Option.getD_some]
    have h50 : generic_base 100 100 100 (35/100) 3 = 50 := by
      norm_num [generic_base]
    have hr : round2 (50 : ℚ) = 50 := by
      rw [round2_mul100_int 50 5000 (by norm_num)]; norm_num
    rw [h50, hr]
    unfold provider_adjust
    rw [if_neg (by decide), if_neg (by decide)]
    norm_num
  · norm_num [specGenericComposite]

/-- C6 amended: For every probe outcome that reaches generic
scoring (provider outside the override family and not `google`), the
score equals the weighted composite with 40% weight on
`min(gapRealVsDecoys/80, 1)`, 20% weight on the decoy-consistency term
`1 − min(|decoy1−decoy2|/100, 1)`, 20% weight on
`min(confidence/0.35, 1)` and the remaining 10% on `min(entropy/3, 1)`,
where `gapRealVsDecoys = |realTime − average(decoyTimes)|`, summed,
rounded to two decimals and capped at 99. -/
theorem c6_generic_weights (f1 f2 r conf : ℚ) (en : ℕ) (p : String)
    (c : Option ℤ) (hp : overrideProviders.contains p = false)
    (hg : ¬ p = "google") :
    (behavioral_score (some f1) (some f2) (some r) conf en p c).score =
      min 99 (round2 (min (|r - (f1 + f2) / 2| / 80) 1 * 40 +
        (1 - min (|f1 - f2| / 100) 1) * 20 +
        min (conf / (35/100)) 1 * 20 + min ((en : ℚ) / 3) 1 * 10)) := by
  rw [behavioral_score_eq, score_verdict_score]
  unfold provider_adjust
  rw [if_neg (by rw [hp]; simp), if_neg hg]
  rfl

/-- Witness for C6 (amended) at an `unknown`-provider probe outcome. -/
theorem c6_generic_weights_witness :
    overrideProviders.contains "unknown" = false ∧
    ¬ "unknown" = "google" ∧
    (behavioral_score (some 100) (some 120) (some 300) (35/100) 2
      "unknown" (some 250)).score =
      min 99 (round2 (min (|(300 : ℚ) - (100 + 120) / 2| / 80) 1 * 40 +
        (1 - min (|(100 : ℚ) - 120| / 100) 1) * 20 +
        min ((35/100 : ℚ) / (35/100)) 1 * 20 + min ((2 : ℚ) / 3) 1 * 10)) := by
  exact ⟨by decide, by decide,
    c6_generic_weights 100 120 300 (35/100) 2 "unknown" (some 250)
      (by decide) (by decide)⟩

/-- C2 counterexample: In a world whose SMTP connect fails for
every session (and an unknown-provider MX), the result is *not* the
claimed blocked verdict: the reason is `pattern_analysis`, not
`smtp_policy`; the score is 23.33, not ≈50; and the status literal is
`"invalid"` (there is no `"undeliverable"` literal in the source). -/
theorem c2_blocked_verdict_counterexample :
    (verify_email wDead "a@x.co").1.reason = some "pattern_analysis" ∧
    ¬ (verify_email wDead "a@x.co").1.reason = some "smtp_policy" ∧
    (verify_email wDead "a@x.co").1.score = 2333/100 ∧
    ¬ (verify_email wDead "a@x.co").1.score = 50 ∧
    (verify_email wDead "a@x.co").1.status = "invalid" ∧
    ¬ (verify_email wDead "a@x.co").1.status = "undeliverable" := by
  obtain ⟨hs, hst, _, hr⟩ := verify_email_dead wDead "a@x.co" (by decide)
    ["mx.example.net"] rfl rfl rfl rfl rfl
  refine ⟨hr, ?_, hs, ?_, hst, ?_⟩
  · rw [hr]; simp
  · rw [hs]; norm_num
  · rw [hst]; simp

/-- C2 amended: Whenever the protocol session cannot be
established (all SMTP connects fail), the verification result is a
fixed verdict, but not the one the claim states: the sentinel carries
no timing data, generic scoring of the empty-timing sequence yields
score 23.33 on every provider path, status `"invalid"`
(`Deliverable = False`), and the reason is the generic
`pattern_analysis` tag — the `smtp_policy` / ≈50 blocked verdict does
not exist in the code.  A transport failure is still never scored as an
explicit 550 rejection (score stays 23.33, not 10). -/
theorem c2_blocked_verdict (w : World) (e : String)
    (hre : emailRegexMatch (pyStrip e) = true) (hos : List String)
    (hres : w.resolve (afterFirstAt (pyStrip e)) = .ok hos)
    (hne : hos.isEmpty = false)
    (hd0 : (w.session 0).connectOk = false)
    (hd1 : (w.session 1).connectOk = false)
    (hd2 : (w.session 2).connectOk = false) :
    (verify_email w e).1.score = 2333/100 ∧
    (verify_email w e).1.status = "invalid" ∧
    (verify_email w e).1.deliverable = false ∧
    (verify_email w e).1.reason = some "pattern_analysis" :=
  verify_email_dead w e hre hos hres hne hd0 hd1 hd2

/-- Witness for C2 (amended) at the all-connects-fail world `wDead`. -/
theorem c2_blocked_verdict_witness :
    emailRegexMatch (pyStrip "b@y.co") = true ∧
    wDead.resolve (afterFirstAt (pyStrip "b@y.co")) = .ok ["mx.example.net"] ∧
    (["mx.example.net"] : List String).isEmpty = false ∧
    (wDead.session 0).connectOk = false ∧
    (wDead.session 1).connectOk = false ∧
    (wDead.session 2).connectOk = false ∧
    ((verify_email wDead "b@y.co").1.score = 2333/100 ∧
     (verify_email wDead "b@y.co").1.status = "invalid" ∧
     (verify_email wDead "b@y.co").1.deliverable = false ∧
     (verify_email wDead "b@y.co").1.reason = some "pattern_analysis") :=
  ⟨by decide, rfl, rfl, rfl, rfl, rfl,
    c2_blocked_verdict wDead "b@y.co" (by decide) ["mx.example.net"]
      rfl rfl rfl rfl rfl⟩

/-- C3 counterexample: For a domain whose resolution fails with a
non-existent-domain error, the reason code is the raw
`mx_error:<exception text>` tag — none of the claimed dedicated codes
`domain_not_exist` / `dns_timeout` is ever produced — and the status
literal is `"invalid"`. -/
theorem c3_dns_reason_counterexample :
    (verify_email wErr "a@x.co").1.reason = some "mx_error:NXDOMAIN" ∧
    ¬ (verify_email wErr "a@x.co").1.reason = some "domain_not_exist" ∧
    ¬ (verify_email wErr "a@x.co").1.reason = some "dns_timeout" ∧
    ¬ (verify_email wErr "a@x.co").1.reason = some "no_mx" ∧
    (verify_email wErr "a@x.co").1.status = "invalid" := by
  exact ⟨by decide, by decide, by decide, by decide, by decide⟩

/-- C3 amended: For every domain whose mail-exchanger resolution
fails or returns an empty answer, the result keeps the default
`"invalid"` status with score 0: an empty successful answer yields
reason `no_mx`, and any resolution error yields reason
`mx_error:<exception text>` — the failure kinds are distinguishable
only through the embedded exception text, not through the dedicated
`domain_not_exist` / `dns_timeout` codes the claim names. -/
theorem c3_dns_failure_reasons (w : World) (e : String)
    (hre : emailRegexMatch (pyStrip e) = true) :
    (w.resolve (afterFirstAt (pyStrip e)) = .ok [] →
      (verify_email w e).1.reason = some "no_mx" ∧
      (verify_email w e).1.status = "invalid" ∧
      (verify_email w e).1.score = 0 ∧
      (verify_email w e).1.deliverable = false) ∧
    (∀ m : String, w.resolve (afterFirstAt (pyStrip e)) = .error m →
      (verify_email w e).1.reason = some ("mx_error:" ++ m) ∧
      (verify_email w e).1.status = "invalid" ∧
      (verify_email w e).1.score = 0 ∧
      (verify_email w e).1.deliverable = false) := by
  constructor
  · intro h
    unfold verify_email
    simp only [normalize_email]
    rw [if_neg (by simp [hre]), h]
    exact ⟨rfl, rfl, rfl, rfl⟩
  · intro m h
    unfold verify_email
    simp only [normalize_email]
    rw [if_neg (by simp [hre]), h]
    exact ⟨rfl, rfl, rfl, rfl⟩

/-- Witness for C3 (amended): the empty-answer world `wEmpty` and the
raising world `wErr`. -/
theorem c3_dns_failure_reasons_witness :
    emailRegexMatch (pyStrip "a@x.co") = true ∧
    wEmpty.resolve (afterFirstAt (pyStrip "a@x.co")) = .ok [] ∧
    ((verify_email wEmpty "a@x.co").1.reason = some "no_mx" ∧
     (verify_email wEmpty "a@x.co").1.status = "invalid" ∧
     (verify_email wEmpty "a@x.co").1.score = 0 ∧
     (verify_email wEmpty "a@x.co").1.deliverable = false) ∧
    wErr.resolve (afterFirstAt (pyStrip "a@x.co")) = .error "NXDOMAIN" ∧
    ((verify_email wErr "a@x.co").1.reason = some ("mx_error:" ++ "NXDOMAIN") ∧
     (verify_email wErr "a@x.co").1.status = "invalid" ∧
     (verify_email wErr "a@x.co").1.score = 0 ∧
     (verify_email wErr "a@x.co").1.deliverable = false) :=
  ⟨by decide, rfl,
    (c3_dns_failure_reasons wEmpty "a@x.co" (by decide)).1 rfl, rfl,
    (c3_dns_failure_reasons wErr "a@x.co" (by decide)).2 "NXDOMAIN" rfl⟩

/-- C5 counterexample: A verification can produce the score 23.33,
which is not an integer: the generic score is rounded to two decimals
(`round(base, 2)`), not to an integer. -/
theorem c5_integer_score_counterexample :
    (verify_email wDead "a@x.co").1.score = 2333/100 ∧
    ¬ ∃ n : ℤ, (verify_email wDead "a@x.co").1.score = (n : ℚ) := by
  obtain ⟨hs, _, _, _⟩ := verify_email_dead wDead "a@x.co" (by decide)
    ["mx.example.net"] rfl rfl rfl rfl rfl
  refine ⟨hs, ?_⟩
  rintro ⟨n, hn⟩
  rw [hs, div_eq_iff (by norm_num)] at hn
  have h3 : (2333 : ℤ) = n * 100 := by exact_mod_cast hn
  omega

/-- C5 amended: For every verification, the final score is a
rational in `[0, 99]` carrying at most two decimals (never 100), and
the status is determined from the score by the fixed thresholds:
`score ≥ 80` yields the deliverable status (spelled `"valid"`),
`55 ≤ score < 80` yields `"risky"`, and `score < 55` yields the
undeliverable status (spelled `"invalid"`) — but the score is not
always an integer. -/
theorem c5_score_range_thresholds (w : World) (e : String) :
    0 ≤ (verify_email w e).1.score ∧ (verify_email w e).1.score ≤ 99 ∧
    (verify_email w e).1.status =
      (if 80 ≤ (verify_email w e).1.score then "valid"
       else if 55 ≤ (verify_email w e).1.score then "risky"
       else "invalid") := by
  unfold verify_email
  simp only [normalize_email]
  split
  · exact ⟨by norm_num, by norm_num, by norm_num⟩
  · split
    · exact ⟨by norm_num, by norm_num, by norm_num⟩
    · split
      · exact ⟨by norm_num, by norm_num, by norm_num⟩
      · simp only [assemble_score, assemble_status]
        unfold seqScore
        refine ⟨(behavioral_score_bounds _ _ _ _ _ _ _
            (analyze_timing_conf_nonneg _)).1,
          (behavioral_score_bounds _ _ _ _ _ _ _
            (analyze_timing_conf_nonneg _)).2,
          behavioral_score_status_eq _ _ _ _ _ _ _⟩

/-- C7 counterexample: On the Microsoft365 path a verification
opens three protocol sessions — one per probe — not one. -/
theorem c7_one_session_counterexample :
    (verify_email wMs "a@x.co").2 = 3 ∧ ¬ (verify_email wMs "a@x.co").2 = 1 := by
  exact ⟨by decide, by decide⟩

/-- C7 amended: `smtp_multi_probe` opens exactly one protocol
session per call, within which all its recipient probes are issued; but
a verification whose provider classifies as `microsoft365` bypasses it
and runs `outlook_single_probe` three times — one fresh session per
probe, three sessions per verification. -/
theorem c7_sessions_per_verification (w : World) (e : String)
    (hre : emailRegexMatch (pyStrip e) = true) (hos : List String)
    (hres : w.resolve (afterFirstAt (pyStrip e)) = .ok hos)
    (hne : hos.isEmpty = false) (srv : ServerBehavior) (r1 r2 mx t : String)
    (a : Bool) :
    ((verify_email w e).2 =
      if detect_mx_provider (hos.headD "") = "microsoft365" then 3 else 1) ∧
    (smtp_multi_probe srv r1 r2 mx t a).2 = 1 := by
  refine ⟨?_, smtp_multi_probe_sessions srv r1 r2 mx t a⟩
  unfold verify_email
  simp only [normalize_email]
  rw [if_neg (by simp [hre]), hres]
  simp only []
  rw [if_neg (by simp [hne])]
  split
  · simp only [outlook_single_probe_sessions]
  · exact smtp_multi_probe_sessions _ _ _ _ _ _

/-- Witness for C7 (amended) at the Microsoft365 world `wMs`. -/
theorem c7_sessions_per_verification_witness :
    emailRegexMatch (pyStrip "a@x.co") = true ∧
    wMs.resolve (afterFirstAt (pyStrip "a@x.co")) = .ok ["mail.outlook.example"] ∧
    (["mail.outlook.example"] : List String).isEmpty = false ∧
    (((verify_email wMs "a@x.co").2 =
        if detect_mx_provider ((["mail.outlook.example"] : List String).headD "")
          = "microsoft365" then 3 else 1) ∧
      (smtp_multi_probe srvDead "r1x" "r2x" "mx" "a@x.co" true).2 = 1) :=
  ⟨by decide, rfl, rfl,
    c7_sessions_per_verification wMs "a@x.co" (by decide) ["mail.outlook.example"]
      rfl rfl srvDead "r1x" "r2x" "mx" "a@x.co" true⟩

/-- C8: Every probe sequence produced by a successfully opened
session is ordered `[decoy1, real, decoy2?]`, and the decoy2 probe is
issued in every case except when the real probe's code is an
accept/temporary-defer code (250/450/451/452) *and*
`|realTime − decoy1Time|` exceeds the fixed 60 ms threshold (the
sequencer is called with `adaptive=True` by `verify_email`). -/
theorem c8_sequence_shape (srv : ServerBehavior) (r1 r2 mx target : String)
    (hok : srv.connectOk = true) :
    (smtp_multi_probe srv r1 r2 mx target true).1 =
      ⟨r1 ++ "@" ++ secondAtSegment target, (srv.rcpt 0).1,
        some (round2 (srv.rcpt 0).2)⟩ ::
      ⟨target, (srv.rcpt 1).1, some (round2 (srv.rcpt 1).2)⟩ ::
      (if inAcceptCodes (srv.rcpt 1).1 = true ∧
          60 < |round2 (srv.rcpt 1).2 - round2 (srv.rcpt 0).2| then []
       else [⟨r2 ++ "@" ++ secondAtSegment target, (srv.rcpt 2).1,
         some (round2 (srv.rcpt 2).2)⟩]) := by
  unfold smtp_multi_probe
  rw [if_pos hok]
  rcases h0 : srv.rcpt 0 with ⟨c1, raw1⟩
  rcases h1 : srv.rcpt 1 with ⟨c2, raw2⟩
  rcases h2 : srv.rcpt 2 with ⟨c3, raw3⟩
  simp only [h0, h1, h2, Bool.true_and]
  by_cases hacc : inAcceptCodes c2 = true
  · by_cases hgt : 60 < |round2 raw2 - round2 raw1|
    · rw [if_pos (by simp [hacc, hgt]), if_pos ⟨hacc, hgt⟩]
    · rw [if_neg (by simp [hacc, hgt]), if_neg (by simp [hgt])]
  · rw [if_neg (by simp [hacc]), if_neg (by simp [hacc])]

/-- Witness for C8 on a concrete accepting session: the gap condition
is not met when the two recorded times are equal, so decoy2 is issued. -/
theorem c8_sequence_shape_witness :
    srvAccept.connectOk = true ∧
    (smtp_multi_probe srvAccept "r1x" "r2x" "mx" "a@x.co" true).1 =
      ⟨"r1x" ++ "@" ++ secondAtSegment "a@x.co", (srvAccept.rcpt 0).1,
        some (round2 (srvAccept.rcpt 0).2)⟩ ::
      ⟨"a@x.co", (srvAccept.rcpt 1).1, some (round2 (srvAccept.rcpt 1).2)⟩ ::
      (if inAcceptCodes (srvAccept.rcpt 1).1 = true ∧
          60 < |round2 (srvAccept.rcpt 1).2 - round2 (srvAccept.rcpt 0).2| then []
       else [⟨"r2x" ++ "@" ++ secondAtSegment "a@x.co", (srvAccept.rcpt 2).1,
         some (round2 (srvAccept.rcpt 2).2)⟩]) :=
  ⟨rfl, c8_sequence_shape srvAccept "r1x" "r2x" "mx" "a@x.co" rfl⟩

theorem MXCache_get_hit (ttl now ts : ℚ) (d : String) (records : List String)
    (h : ¬ ttl < now - ts) :
    MXCache.get ⟨ttl, [(d, ts, records)]⟩ now d =
      (some records, ⟨ttl, [(d, ts, records)]⟩) := by
  unfold MXCache.get storeLookup
  rw [List.find?_cons_of_pos _ (by simp)]
  simp only []
  rw [if_neg h]

theorem MXCache_get_expired (ttl now ts : ℚ) (d : String) (records : List String)
    (h : ttl < now - ts) :
    MXCache.get ⟨ttl, [(d, ts, records)]⟩ now d = (none, ⟨ttl, []⟩) := by
  unfold MXCache.get storeLookup
  rw [List.find?_cons_of_pos _ (by simp)]
  simp only []
  rw [if_pos h]
  simp [List.filter]

theorem resolve_mx_fresh (resolver : String → Except String (List String))
    (now1 : ℚ) (d : String) (ttl : ℚ) (raw : List String) (q : ℕ)
    (hres : resolver d = .ok raw) :
    resolve_mx resolver now1 d ⟨ttl, []⟩ q =
      (.ok (raw.map pyRstripDot),
        ⟨ttl, [(d, now1, raw.map pyRstripDot)]⟩, q + 1) := by
  unfold resolve_mx mxQuery MXCache.get storeLookup MXCache.set
  simp only [List.find?_nil, hres]
  rfl

/-- C9 counterexample: When the underlying resolver answers
successfully with an empty record list, the cached empty list is falsy
(`if cached:`), so a second resolution of the same domain well inside
the TTL window issues a second underlying DNS query instead of being
served from the cache. -/
theorem c9_ttl_counterexample :
    (resolve_mx emptyResolver 0 "x.co" ⟨3600, []⟩ 0).2.2 = 1 ∧
    ¬ (3600 : ℚ) < 10 - 0 ∧
    (resolve_mx emptyResolver 10 "x.co"
      (resolve_mx emptyResolver 0 "x.co" ⟨3600, []⟩ 0).2.1
      (resolve_mx emptyResolver 0 "x.co" ⟨3600, []⟩ 0).2.2).2.2 = 2 ∧
    ¬ (2 : ℕ) ≤ 1 := by
  have h1 : resolve_mx emptyResolver 0 "x.co" ⟨3600, []⟩ 0 =
      (.ok [], ⟨3600, [("x.co", 0, [])]⟩, 1) :=
    resolve_mx_fresh emptyResolver 0 "x.co" 3600 [] 0 rfl
  refine ⟨by rw [h1], by norm_num, ?_, by norm_num⟩
  rw [h1]
  simp only []
  unfold resolve_mx
  rw [MXCache_get_hit 3600 10 0 "x.co" [] (by norm_num)]
  simp only [List.isEmpty_nil, if_pos]
  unfold mxQuery
  simp only [emptyResolver]

/-- C9 amended: Provided the (dot-stripped) answer is non-empty:
a first resolution of a domain issues one underlying DNS query and
caches the answer; a second resolution within the TTL window
(`now2 − now1 ≤ ttl`) is served from the cache with no further query;
and a resolution after the TTL has expired (`ttl < now3 − now1`)
issues a new underlying query.  An empty answer, however, is never
served from the cache. -/
theorem c9_ttl_cache (resolver : String → Except String (List String))
    (d : String) (raw : List String) (ttl now1 now2 now3 : ℚ)
    (hres : resolver d = .ok raw)
    (hne : (raw.map pyRstripDot).isEmpty = false)
    (hfresh : ¬ ttl < now2 - now1) (hexp : ttl < now3 - now1) :
    (resolve_mx resolver now1 d ⟨ttl, []⟩ 0).2.2 = 1 ∧
    (resolve_mx resolver now1 d ⟨ttl, []⟩ 0).1 = .ok (raw.map pyRstripDot) ∧
    (resolve_mx resolver now2 d
      (resolve_mx resolver now1 d ⟨ttl, []⟩ 0).2.1 1).2.2 = 1 ∧
    (resolve_mx resolver now2 d
      (resolve_mx resolver now1 d ⟨ttl, []⟩ 0).2.1 1).1 =
        .ok (raw.map pyRstripDot) ∧
    (resolve_mx resolver now3 d
      (resolve_mx resolver now1 d ⟨ttl, []⟩ 0).2.1 1).2.2 = 2 := by
  have h1 : resolve_mx resolver now1 d ⟨ttl, []⟩ 0 =
      (.ok (raw.map pyRstripDot),
        ⟨ttl, [(d, now1, raw.map pyRstripDot)]⟩, 1) :=
    resolve_mx_fresh resolver now1 d ttl raw 0 hres
  have h2 : resolve_mx resolver now2 d
      (⟨ttl, [(d, now1, raw.map pyRstripDot)]⟩ : MXCache) 1 =
      (.ok (raw.map pyRstripDot),
        ⟨ttl, [(d, now1, raw.map pyRstripDot)]⟩, 1) := by
    unfold resolve_mx
    rw [MXCache_get_hit ttl now2 now1 d (raw.map pyRstripDot) hfresh]
    simp only [hne, Bool.false_eq_true, if_false]
  have h3 : (resolve_mx resolver now3 d
      (⟨ttl, [(d, now1, raw.map pyRstripDot)]⟩ : MXCache) 1).2.2 = 2 := by
    unfold resolve_mx
    rw [MXCache_get_expired ttl now3 now1 d (raw.map pyRstripDot) hexp]
    simp only []
    unfold mxQuery
    rw [hres]
  rw [h1]
  exact ⟨rfl, rfl, by rw [h2], by rw [h2], h3⟩

/-- Witness for C9 (amended): one host, TTL 3600, lookups at times 0,
10 (fresh) and 5000 (expired). -/
theorem c9_ttl_cache_witness :
    okResolver "x.co" = .ok ["mx.example.com."] ∧
    ((["mx.example.com."] : List String).map pyRstripDot).isEmpty = false ∧
    ¬ (3600 : ℚ) < 10 - 0 ∧
    (3600 : ℚ) < 5000 - 0 ∧
    ((resolve_mx okResolver 0 "x.co" ⟨3600, []⟩ 0).2.2 = 1 ∧
     (resolve_mx okResolver 0 "x.co" ⟨3600, []⟩ 0).1 =
       .ok ((["mx.example.com."] : List String).map pyRstripDot) ∧
     (resolve_mx okResolver 10 "x.co"
       (resolve_mx okResolver 0 "x.co" ⟨3600, []⟩ 0).2.1 1).2.2 = 1 ∧
     (resolve_mx okResolver 10 "x.co"
       (resolve_mx okResolver 0 "x.co" ⟨3600, []⟩ 0).2.1 1).1 =
         .ok ((["mx.example.com."] : List String).map pyRstripDot) ∧
     (resolve_mx okResolver 5000 "x.co"
       (resolve_mx okResolver 0 "x.co" ⟨3600, []⟩ 0).2.1 1).2.2 = 2) :=
  ⟨rfl, by decide, by norm_num, by norm_num,
    c9_ttl_cache okResolver "x.co" ["mx.example.com."] 3600 0 10 5000
      rfl (by decide) (by norm_num) (by norm_num)⟩

/-- C1 counterexample: `verifyBulk(["a@x.co","bad","b@y.co"])`
returns only 2 results — the syntactically invalid `"bad"` is silently
dropped before dispatch and receives no result at all, so the output is
not one result per input. -/
theorem c1_bulk_counterexample :
    (verify_bulk_emails (fun _ => wDead) ["a@x.co", "bad", "b@y.co"]).length = 2 ∧
    ¬ (verify_bulk_emails (fun _ => wDead)
        ["a@x.co", "bad", "b@y.co"]).length = 3 ∧
    (verify_bulk_emails (fun _ => wDead) ["a@x.co", "bad", "b@y.co"]).map
      (·.email) = ["a@x.co", "b@y.co"] := by
  have h := verify_bulk_map_email (fun _ => wDead) ["a@x.co", "bad", "b@y.co"]
  have hf : (((["a@x.co", "bad", "b@y.co"] : List String).filter
      (fun e => !e.isEmpty && emailRegexMatch e)).map normalize_email) =
      ["a@x.co", "b@y.co"] := by decide
  rw [hf] at h
  have h2 : (verify_bulk_emails (fun _ => wDead)
      ["a@x.co", "bad", "b@y.co"]).length = 2 := by
    have := congrArg List.length h
    simpa using this
  refine ⟨h2, ?_, h⟩
  rw [h2]
  norm_num

/-- C1 amended: For every list of input addresses, `verifyBulk`
returns exactly one result per *syntactically valid* input, keyed by
that input's normalized address and in the original input order;
syntactically invalid (or empty) inputs are filtered out before any
network dispatch and are silently dropped from the output — they do not
receive an `invalid`/`bad_syntax` result. -/
theorem c1_bulk_results_order (w : ℕ → World) (emails : List String) :
    (verify_bulk_emails w emails).length =
      (emails.filter (fun e => !e.isEmpty && emailRegexMatch e)).length ∧
    (verify_bulk_emails w emails).map (·.email) =
      (emails.filter (fun e => !e.isEmpty && emailRegexMatch e)).map
        normalize_email := by
  have h := verify_bulk_map_email w emails
  constructor
  · have := congrArg List.length h
    simpa using this
  · exact h

end Bounso
